import Mathlib

/-!
Shallow embedding, in Lean 4, of the geph4-client gateway code in
src/config.rs and src/connect.rs, together with theorems checking the
natural-language specification against it.

Conventions of the embedding:
* machine bytes are `Nat` values, bounded by 256 where it matters;
* Rust `Option<T>` becomes `Option T`, `Result<T, E>` becomes `Except E T`;
* external crates (blake3, stdcode, tmelcrypt) are taken as function
  parameters of the definitions that call them, since their code is not part
  of this repository;
* lazily-initialized statics become explicit state passing or pure functions
  of their inputs;
* spawned async tasks become event traces in program order.
-/

/-! ## Character-level string splitting (Rust `str::split`) -/

/-- Splitting a character list at every occurrence of a separator character,
with the semantics of Rust's `str::split(char)`: the empty string yields one
empty field, and separators at the ends yield empty fields. -/
def splitChar (sep : Char) : List Char → List (List Char)
  | [] => [[]]
  | c :: rest =>
    match splitChar sep rest with
    | [] => [[]]
    | cur :: more =>
      if c = sep then [] :: cur :: more else (c :: cur) :: more

/-- Rust `s.split(sep)` on `String`s, as a list of `String` fields. -/
def splitOnChar (sep : Char) (s : String) : List String :=
  (splitChar sep s.data).map (fun cs => String.mk cs)

/-! ## Censorship probe and the bridge decision (connect.rs, SHOULD_USE_BRIDGES)

The Rust value has type `Option<Result<bool, Error>>`: `None` when
`test_china()` failed to complete within the 2-second timeout, `Some(Err _)`
when it completed with an internal error, `Some(Ok b)` when it answered. -/

/-- Outcome of `test_china().timeout(Duration::from_secs(2))`. -/
inductive ProbeOutcome : Type
  | timedOut
  | probeErr
  | completed (isChina : Bool)
deriving DecidableEq

/-- The body of the `SHOULD_USE_BRIDGES` lazy static: the match in
connect.rs lines 74-89, with the probe outcome and the configured
`use_bridges` flag made explicit parameters. -/
def should_use_bridges (probe : ProbeOutcome) (use_bridges : Bool) : Bool :=
  match probe with
  | .probeErr => true
  | .timedOut => true
  | .completed true => true
  | .completed false => use_bridges

/-! ## VPN mode parsing (config.rs, impl FromStr for VpnMode) -/

/-- The VpnMode enum of config.rs. -/
inductive VpnMode : Type
  | inheritedFd
  | tunNoRoute
  | tunRoute
  | winDivert
  | stdio
deriving DecidableEq

/-- VpnMode::from_str of config.rs lines 131-141: a match on the raw string,
with a catch-all error arm. -/
def VpnMode.fromStr (s : String) : Except String VpnMode :=
  if s = "inherited-fd" then .ok .inheritedFd
  else if s = "tun-no-route" then .ok .tunNoRoute
  else if s = "tun-route" then .ok .tunRoute
  else if s = "windivert" then .ok .winDivert
  else if s = "stdio" then .ok .stdio
  else .error ("unrecognized VPN mode " ++ s)

/-! ## Configuration records (config.rs) -/

/-- AuthKind of config.rs: password or keypair authentication. -/
inductive AuthKind : Type
  | authPassword (username : String) (password : String)
  | authKeypair (sk_path : String)
deriving DecidableEq

/-- AuthOpt of config.rs.  The credential-cache root path is modelled as its
list of components. -/
structure AuthOpt : Type where
  credential_cache : List String
  auth_kind : AuthKind
deriving DecidableEq

/-- CommonOpt of config.rs.  The binder keys are opaque here; the front and
host lists are the raw comma-separated strings, exactly as configured. -/
structure CommonOpt : Type where
  binder_http_fronts : String
  binder_http_hosts : String
  binder_master : List Nat
  binder_mizaru_free : List Nat
  binder_mizaru_plus : List Nat
  debugpack_path : String
deriving DecidableEq

/-- ConnectOpt of config.rs.  Socket addresses are kept as strings; they are
never inspected by the code under verification. -/
structure ConnectOpt : Type where
  common : CommonOpt
  auth : AuthOpt
  use_bridges : Bool
  override_connect : Option String
  force_bridge : Option String
  udp_shard_count : Nat
  udp_shard_lifetime : Nat
  tcp_shard_count : Nat
  tcp_shard_lifetime : Nat
  http_listen : String
  socks5_listen : String
  stats_listen : String
  dns_listen : String
  exit_server : Option String
  exclude_prc : Bool
  stdio_vpn : Bool
  sticky_bridges : Bool
  vpn_mode : Option VpnMode
  force_protocol : Option String
  forward_ports : List String
deriving DecidableEq

/-! ## Binder client construction (config.rs, CommonOpt::get_binder_client)

`get_binder_client` zips the comma-split front list with the comma-split
host list to obtain the (front, host) fallback pairs handed to
`parse_fronts`. -/

/-- The (front, host) pairs built by CommonOpt::get_binder_client in
config.rs lines 190-198: split each configured string on commas and zip the
two lists positionally. -/
def get_binder_client_pairs (common : CommonOpt) : List (String × String) :=
  (splitOnChar ',' common.binder_http_fronts).zip
    (splitOnChar ',' common.binder_http_hosts)

/-! ## Hex encoding and decoding (the hex crate, as used by config.rs)

`hex::encode` produces two lowercase hexadecimal digits per byte;
`hex::decode` fails on odd-length input or on any non-hexadecimal
character, accepting both lowercase and uppercase digits. -/

/-- The lowercase hexadecimal digit for a nibble value below 16. -/
def hexDigitChar (n : Nat) : Char :=
  if n < 10 then Char.ofNat (48 + n) else Char.ofNat (87 + n)

/-- The two lowercase hexadecimal digits of one byte. -/
def byteHexChars (b : Nat) : List Char := [hexDigitChar (b / 16), hexDigitChar (b % 16)]

/-- hex::encode on a byte list. -/
def hexEncode (bs : List Nat) : String := String.mk (bs.flatMap byteHexChars)

/-- Numeric value of one hexadecimal character code (the byte read from the
key file), accepting 0-9, a-f and A-F as the hex crate does. -/
def hexCharVal (c : Nat) : Option Nat :=
  if 48 ≤ c ∧ c ≤ 57 then some (c - 48)
  else if 97 ≤ c ∧ c ≤ 102 then some (c - 87)
  else if 65 ≤ c ∧ c ≤ 70 then some (c - 55)
  else none

/-- hex::decode on the raw bytes of a file: pairs of hex digits, failing on
an odd-length input or an invalid digit. -/
def hexDecode : List Nat → Option (List Nat)
  | [] => some []
  | [_] => none
  | a :: b :: rest =>
    match hexCharVal a, hexCharVal b, hexDecode rest with
    | some ha, some hb, some tl => some ((16 * ha + hb) :: tl)
    | _, _, _ => none

/-! ## Credential-cache key and store path (config.rs, get_conninfo_store)

`get_conninfo_store` computes
`user_cache_key = hex::encode(blake3::hash(auth_kind.stdcode()))`, pushes it
onto the configured cache root, calls `create_dir_all` on that directory,
pushes `"conninfo.json"`, and only then connects the store.  The blake3 hash
and the stdcode serializer live in external crates, so they enter the
embedding as function parameters. -/

/-- The `user_cache_key` local of get_conninfo_store (config.rs line 268):
hex of the hash of the serialized auth kind. -/
def user_cache_key (hash : List Nat → List Nat) (ser : AuthKind → List Nat)
    (ak : AuthKind) : String :=
  hexEncode (hash (ser ak))

/-- Filesystem-facing effects of get_conninfo_store, in program order. -/
inductive ConnInfoEffect : Type
  | createDirAll (path : List String)
  | connectStore (path : List String)
deriving DecidableEq

/-- The file get_conninfo_store hands to ConnInfoStore::connect: the cache
root, then the hashed-identity subdirectory, then "conninfo.json"
(config.rs lines 285-289). -/
def conninfo_path (hash : List Nat → List Nat) (ser : AuthKind → List Nat)
    (auth_opt : AuthOpt) : List String :=
  auth_opt.credential_cache ++ [user_cache_key hash ser auth_opt.auth_kind, "conninfo.json"]

/-- The spec's wording of the same path, for comparison: it names the final
component "conninfo", without the ".json" extension. -/
def conninfo_path_claimed (hash : List Nat → List Nat) (ser : AuthKind → List Nat)
    (auth_opt : AuthOpt) : List String :=
  auth_opt.credential_cache ++ [user_cache_key hash ser auth_opt.auth_kind, "conninfo"]

/-- The sequence of filesystem effects of get_conninfo_store
(config.rs lines 285-297), mirroring the successive `dbpath.push` calls:
create the hashed subdirectory, then connect the store on the
"conninfo.json" file inside it. -/
def get_conninfo_store_trace (hash : List Nat → List Nat) (ser : AuthKind → List Nat)
    (auth_opt : AuthOpt) : List ConnInfoEffect :=
  let dbpath0 := auth_opt.credential_cache
  let key := user_cache_key hash ser auth_opt.auth_kind
  let dbpath1 := dbpath0 ++ [key]
  let dbpath2 := dbpath1 ++ ["conninfo.json"]
  [.createDirAll dbpath1, .connectStore dbpath2]

/-! ## Credential derivation (config.rs, the get_creds closure)

For password identities the closure builds `Credentials::Password` directly.
For keypair identities it reads the key file, hex-decodes it and parses an
Ed25519 secret key, calling `.unwrap()` on each step: any failure is a panic
that terminates the process.  File contents and the tmelcrypt key parser are
parameters. -/

/-- Credentials of the binder protocol, as produced by get_creds. -/
inductive Credentials : Type
  | password (username : String) (pw : String)
  | keypair (sk : List Nat)
deriving DecidableEq

/-- Either a process-terminating panic or a value. -/
inductive PanicOr (α : Type) : Type
  | panicStop
  | value (a : α)
deriving DecidableEq

/-- The get_creds closure of config.rs lines 271-283.  `skFromBytes` models
tmelcrypt's Ed25519SK::from_bytes (an external crate), `readFile` the
contents of the secret-key file.  Both `.unwrap()` calls on the keypair path
become `.panicStop`. -/
def get_creds (skFromBytes : List Nat → Option (List Nat))
    (readFile : String → List Nat) : AuthKind → PanicOr Credentials
  | .authPassword u p => .value (.password u p)
  | .authKeypair sk_path =>
    match hexDecode (readFile sk_path) with
    | none => .panicStop
    | some sk_raw =>
      match skFromBytes sk_raw with
      | none => .panicStop
      | some sk => .value (.keypair sk)

/-! ## Tunnel endpoint resolution (connect.rs, TUNNEL)

The TUNNEL lazy static builds the EndpointSource: an override URL, when
configured, short-circuits to `Independent`; otherwise the binder parameters
are assembled from the conninfo store, the exit server, the bridge decision
and the forcing options.  The store is lazily constructed in Rust and never
touched on the override path; here it is a parameter of arbitrary type. -/

/-- BinderTunnelParams of connect/tunnel, over an abstract store type. -/
structure BinderTunnelParams (σ : Type) : Type where
  cstore : σ
  exit_server : Option String
  use_bridges : Bool
  force_bridge : Option String
  force_protocol : Option String
deriving DecidableEq

/-- EndpointSource of connect/tunnel: independent URL or binder-guided. -/
inductive EndpointSource (σ : Type) : Type
  | independent (endpoint : String)
  | binder (params : BinderTunnelParams σ)
deriving DecidableEq

/-- The endpoint computation of the TUNNEL lazy static (connect.rs lines
101-115), with the probe outcome and the conninfo store as parameters. -/
def tunnel_endpoint {σ : Type} (cfg : ConnectOpt) (probe : ProbeOutcome)
    (cstore : σ) : EndpointSource σ :=
  match cfg.override_connect with
  | some override_url => .independent override_url
  | none =>
    .binder
      { cstore := cstore
        exit_server := cfg.exit_server
        use_bridges := should_use_bridges probe cfg.use_bridges
        force_bridge := cfg.force_bridge
        force_protocol := cfg.force_protocol }

/-! ## The configuration singleton (config.rs, INIT_CONFIG / override_config / CONFIG)

`INIT_CONFIG` is a OnceCell; `override_config(opt)` performs
`INIT_CONFIG.get_or_init(|| opt)`; `CONFIG` is a Lazy whose first forcing
performs `INIT_CONFIG.get_or_init(Opt::from_args).clone()`.  The two cells
become an explicit state record, and a run of the process becomes a list of
operations threaded through that state. -/

/-- Joint state of the INIT_CONFIG once-cell and the CONFIG lazy cell. -/
structure OnceState (α : Type) : Type where
  initConfig : Option α
  lazyConfig : Option α
deriving DecidableEq

/-- override_config of config.rs lines 18-20: get_or_init on INIT_CONFIG,
a no-op when the cell is already filled. -/
def override_config {α : Type} (opt : α) (s : OnceState α) : OnceState α :=
  match s.initConfig with
  | some _ => s
  | none => { s with initConfig := some opt }

/-- One access of the CONFIG lazy static (config.rs line 23): the memoized
value if the Lazy is forced, otherwise `INIT_CONFIG.get_or_init(from_args)`,
memoized into both cells. -/
def access_config {α : Type} (fromArgs : α) (s : OnceState α) : α × OnceState α :=
  match s.lazyConfig with
  | some v => (v, s)
  | none =>
    match s.initConfig with
    | some v => (v, { initConfig := some v, lazyConfig := some v })
    | none => (fromArgs, { initConfig := some fromArgs, lazyConfig := some fromArgs })

/-- An operation on the configuration singleton. -/
inductive ConfigOp (α : Type) : Type
  | overrideOp (opt : α)
  | accessOp
deriving DecidableEq

/-- Run a sequence of singleton operations from a state, collecting the
value every access returns. -/
def run_config_ops {α : Type} (fromArgs : α) :
    List (ConfigOp α) → OnceState α → OnceState α × List α
  | [], s => (s, [])
  | .overrideOp o :: rest, s => run_config_ops fromArgs rest (override_config o s)
  | .accessOp :: rest, s =>
    let va := access_config fromArgs s
    let rec_result := run_config_ops fromArgs rest va.2
    (rec_result.1, va.1 :: rec_result.2)

/-- The access results of a whole process run, starting from both cells
empty. -/
def config_access_results {α : Type} (fromArgs : α) (ops : List (ConfigOp α)) : List α :=
  (run_config_ops fromArgs ops ⟨none, none⟩).2

/-! ## The credential refresh loop (connect.rs, refresh_fut)

The loop body calls `CONNINFO_STORE.refresh().await`, logs on error, then
sleeps 120 seconds — with no break, return or propagated error.  A run of
the first n iterations becomes an event trace, driven by an arbitrary
sequence of refresh outcomes (`true` = that refresh failed). -/

/-- Events of one refresh-loop iteration. -/
inductive RefreshEvent : Type
  | refreshAttempt
  | logWarn
  | sleepSecs (secs : Nat)
deriving DecidableEq

/-- How a loop iteration ends: continue looping, or escalate out of the
loop (the latter never happens in this code, proved below — the loop body
has no break, return or `?` operator). -/
inductive LoopControl : Type
  | continueLoop
  | escalate
deriving DecidableEq

/-- One iteration of the refresh loop (connect.rs lines 149-154): attempt a
refresh, log a warning when it failed, sleep 120 seconds, continue. -/
def refresh_loop_iter (failed : Bool) : List RefreshEvent × LoopControl :=
  ([.refreshAttempt] ++ (if failed then [.logWarn] else []) ++ [.sleepSecs 120],
   .continueLoop)

/-- Trace of the first n iterations of the refresh loop under an arbitrary
outcome sequence. -/
def refresh_loop_trace (outcomes : Nat → Bool) : Nat → List RefreshEvent
  | 0 => []
  | n + 1 => refresh_loop_trace outcomes n ++ (refresh_loop_iter (outcomes n)).1

/-! ## Startup of the connect task (connect.rs, CONNECT_TASK)

The CONNECT_TASK body spawns, in program order: the HTTP-to-SOCKS proxy,
the SOCKS5 loop, the DNS loop, the refresh loop, and then one forwarding
task per entry of `forward_ports` — the forward-spec strings are first
examined inside those spawned forwarding tasks.  Each task body can only run
after its own spawn, so the trace below inlines each forwarder body right
after its spawn event; every linearization of the real execution keeps the
four leading spawns ahead of any forwarder-body event. -/

/-- Decimal port parsing over a character list: digits only, accumulated
left to right, empty input rejected. -/
def decimal_val_aux : List Char → Nat → Option Nat
  | [], acc => some acc
  | c :: rest, acc =>
    if 48 ≤ c.toNat ∧ c.toNat ≤ 57 then decimal_val_aux rest (10 * acc + (c.toNat - 48))
    else none

/-- Parsing of a port number: a nonempty digit string below 65536. -/
def parse_port : List Char → Option Nat
  | [] => none
  | c :: rest =>
    match decimal_val_aux (c :: rest) 0 with
    | some n => if n < 65536 then some n else none
    | none => none

/-- Joining character-list fields back with ':' separators. -/
def join_colon : List (List Char) → List Char
  | [] => []
  | [x] => x
  | x :: y :: rest => x ++ ':' :: join_colon (y :: rest)

/-- Parsing of one host:port half of a forward spec.
Modelled from the spec: the port_forwarder module is not under src/; §6 of
the spec gives the format `localbind_host:localbind_port:::remote_host:remote_port`
and calls an entry with an unparsable host:port malformed.  The host may
itself contain colons, so the port is taken after the last colon. -/
def parse_host_port (s : String) : Option (String × Nat) :=
  match (splitChar ':' s.data).reverse with
  | port_str :: host_head :: host_tail =>
    match parse_port port_str with
    | some port => some (String.mk (join_colon (host_head :: host_tail).reverse), port)
    | none => none
  | _ => none

/-- Splitting a character list at the first ":::" occurrence.
Modelled from the spec: an entry "missing the ::: separator" is malformed. -/
def split_triple_colon : List Char → Option (List Char × List Char)
  | ':' :: ':' :: ':' :: rest => some ([], rest)
  | [] => none
  | c :: rest =>
    match split_triple_colon rest with
    | some lr => some (c :: lr.1, lr.2)
    | none => none

/-- Parsing of a whole forward spec into (local bind, remote target).
Modelled from the spec: the port_forwarder module is not under src/; this
follows §6 and §8 of the spec ("0.0.0.0:8888:::example.com:22" parses to
local bind 0.0.0.0:8888 and remote target example.com:22; an entry missing
the ::: separator or with an unparsable host:port is malformed). -/
def parse_forward_spec (s : String) : Option ((String × Nat) × (String × Nat)) :=
  match split_triple_colon s.data with
  | none => none
  | some lr =>
    match parse_host_port (String.mk lr.1), parse_host_port (String.mk lr.2) with
    | some lo, some re => some (lo, re)
    | _, _ => none

/-- Events of the connect-task startup sequence. -/
inductive StartEvent : Type
  | spawnHttpToSocks
  | spawnSocks5
  | spawnDns
  | spawnRefresh
  | spawnForwarder (spec : String)
  | forwarderReject (spec : String)
  | forwarderRun (spec : String)
  | awaitForwarderSelectAll
  | cancelRemainingForwarders
deriving DecidableEq

/-- Body of one forwarding task: examine the spec string; a malformed one is
rejected and that task's body completes, otherwise the forwarder runs
indefinitely. -/
def forwarder_task_trace (spec : String) : List StartEvent :=
  match parse_forward_spec spec with
  | none => [.forwarderReject spec]
  | some _ => [.forwarderRun spec]

/-- The select_all stage of CONNECT_TASK (connect.rs lines 163-164): when
`forward_ports` is nonempty, the connect task awaits a `select_all` over the
forwarder tasks.  A well-formed forwarder runs indefinitely, so the await
returns exactly when some forwarding task completes — which a malformed
entry's rejection does — and then the remaining forwarder `Task` handles
returned by `select_all` are dropped, cancelling the surviving forwarding
tasks. -/
def forwarder_select_all_trace (cfg : ConnectOpt) : List StartEvent :=
  if cfg.forward_ports.isEmpty then []
  else
    .awaitForwarderSelectAll ::
      (if cfg.forward_ports.any (fun s => (parse_forward_spec s).isNone) then
        [.cancelRemainingForwarders]
      else [])

/-- The startup trace of CONNECT_TASK (connect.rs lines 120-165): the four
unconditional spawns; then per forward-port entry its task spawn followed by
that task's body (a body can only run after its own spawn, and every
linearization keeps the four leading spawns ahead of all forwarder-body
events); then the select_all await over the forwarder tasks, whose
completion on a rejection drops and cancels the remaining forwarding tasks.
Nothing about `forward_ports` is examined before the four leading spawns
have happened.  The startup steps after line 165 (stats thread, VPN task,
the final race) are beyond the modelled prefix. -/
def connect_task_trace (cfg : ConnectOpt) : List StartEvent :=
  [.spawnHttpToSocks, .spawnSocks5, .spawnDns, .spawnRefresh]
    ++ cfg.forward_ports.flatMap (fun s => .spawnForwarder s :: forwarder_task_trace s)
    ++ forwarder_select_all_trace cfg

/-- Does the event spawn a network task? -/
def isSpawn : StartEvent → Bool
  | .spawnHttpToSocks => true
  | .spawnSocks5 => true
  | .spawnDns => true
  | .spawnRefresh => true
  | .spawnForwarder _ => true
  | _ => false

/-- Is the event the rejection of a malformed forward spec? -/
def isReject : StartEvent → Bool
  | .forwarderReject _ => true
  | _ => false

/-- True when some network-task spawn strictly precedes some malformed-spec
rejection in the trace; the spec claims this never happens (all rejections
come before any spawn). -/
def spawn_before_reject : List StartEvent → Bool
  | [] => false
  | e :: rest => (isSpawn e && rest.any isReject) || spawn_before_reject rest

/-! ## Concrete sample configuration, used to instantiate theorems -/

/-- A concrete ConnectOpt, parameterized by the fields the theorems below
vary; every other field holds the structopt default of config.rs. -/
def sample_connect_opt (override_connect : Option String)
    (forward_ports : List String) : ConnectOpt where
  common :=
    { binder_http_fronts := "https://fronts.example/a,https://fronts.example/b"
      binder_http_hosts := "host-a.example,host-b.example"
      binder_master := [18, 69]
      binder_mizaru_free := [78, 1]
      binder_mizaru_plus := [68, 171]
      debugpack_path := "file::memory:?cache=shared" }
  auth :=
    { credential_cache := ["home", "geph4-credentials"]
      auth_kind := .authPassword "alice" "hunter2" }
  use_bridges := false
  override_connect := override_connect
  force_bridge := none
  udp_shard_count := 1
  udp_shard_lifetime := 30
  tcp_shard_count := 2
  tcp_shard_lifetime := 10
  http_listen := "127.0.0.1:9910"
  socks5_listen := "127.0.0.1:9909"
  stats_listen := "127.0.0.1:9809"
  dns_listen := "127.0.0.1:15353"
  exit_server := none
  exclude_prc := false
  stdio_vpn := false
  sticky_bridges := false
  vpn_mode := none
  force_protocol := none
  forward_ports := forward_ports

/-! ## C1: the bridge-usage decision -/

/-- C1: the process-wide bridge decision is true exactly when the probe
reports a hostile network, or the probe errored or timed out, or the user
configured use_bridges; in particular a timeout or error forces bridges on
even with the preference off, and use_bridges wins even on a non-hostile
network. -/
theorem c1_should_use_bridges_iff (probe : ProbeOutcome) (use_bridges : Bool) :
    should_use_bridges probe use_bridges = true ↔
      probe = .completed true ∨ probe = .timedOut ∨ probe = .probeErr ∨
        use_bridges = true := by
  cases probe with
  | timedOut => simp [should_use_bridges]
  | probeErr => simp [should_use_bridges]
  | completed isChina => cases isChina <;> simp [should_use_bridges]

/-! ## C2: override URL short-circuits endpoint resolution -/

/-- C2: with override_connect set, the tunnel endpoint is Independent with
exactly that URL, unchanged by the probe outcome or the conninfo store, and
repeated resolution yields the identical EndpointSource. -/
theorem c2_override_connect_independent {σ : Type} (cfg : ConnectOpt)
    (url : String) (p₁ p₂ : ProbeOutcome) (s₁ s₂ : σ)
    (hov : cfg.override_connect = some url) :
    tunnel_endpoint cfg p₁ s₁ = .independent url ∧
      tunnel_endpoint cfg p₁ s₁ = tunnel_endpoint cfg p₂ s₂ := by
  unfold tunnel_endpoint
  rw [hov]
  exact ⟨rfl, rfl⟩

/-- Witness for C2 at a concrete configuration and two differing probe
outcomes and stores. -/
theorem c2_override_connect_independent_witness :
    tunnel_endpoint (sample_connect_opt (some "pk@198.51.100.7:19831") []) ProbeOutcome.timedOut (0 : Nat)
        = .independent "pk@198.51.100.7:19831" ∧
      tunnel_endpoint (sample_connect_opt (some "pk@198.51.100.7:19831") []) ProbeOutcome.timedOut (0 : Nat)
        = tunnel_endpoint (sample_connect_opt (some "pk@198.51.100.7:19831") []) (ProbeOutcome.completed false) (1 : Nat) :=
  c2_override_connect_independent (sample_connect_opt (some "pk@198.51.100.7:19831") [])
    "pk@198.51.100.7:19831" ProbeOutcome.timedOut (ProbeOutcome.completed false) 0 1 rfl

/-! ## C6: the VPN mode parser accepts exactly five strings -/

/-- C6: VpnMode.fromStr succeeds exactly on the five recognized selector
strings, with the stated mapping, and errors on every other input. -/
theorem c6_vpn_mode_from_str (s : String) :
    ((VpnMode.fromStr s).toOption = some VpnMode.inheritedFd ↔ s = "inherited-fd") ∧
    ((VpnMode.fromStr s).toOption = some VpnMode.tunNoRoute ↔ s = "tun-no-route") ∧
    ((VpnMode.fromStr s).toOption = some VpnMode.tunRoute ↔ s = "tun-route") ∧
    ((VpnMode.fromStr s).toOption = some VpnMode.winDivert ↔ s = "windivert") ∧
    ((VpnMode.fromStr s).toOption = some VpnMode.stdio ↔ s = "stdio") ∧
    ((VpnMode.fromStr s).isOk = true ↔
      s ∈ ["inherited-fd", "tun-no-route", "tun-route", "windivert", "stdio"]) := by
  unfold VpnMode.fromStr
  split_ifs with h1 h2 h3 h4 h5 <;>
    simp_all [Except.toOption, Except.isOk, Except.toBool]

/-! ## C10: positional zipping of fronts and hosts -/

/-- Zipping two lists is the same as zipping their first min-length
prefixes: the surplus entries of the longer list never appear. -/
theorem zip_take_min {α β : Type} : ∀ (a : List α) (b : List β),
    a.zip b = (a.take (min a.length b.length)).zip (b.take (min a.length b.length))
  | [], _ => by simp
  | _ :: _, [] => by simp
  | x :: xs, y :: ys => by
    simp only [List.zip_cons_cons, List.length_cons]
    rw [Nat.succ_min_succ]
    simp only [List.take_succ_cons, List.zip_cons_cons]
    exact congrArg _ (zip_take_min xs ys)

/-- C10: the (front, host) fallback pairs of get_binder_client are the
positional zip of the two comma-split lists: exactly
min(len(fronts), len(hosts)) pairs, the surplus entries of the longer list
silently dropped, and no error is ever produced (the function is total). -/
theorem c10_binder_pairs_zip_min (common : CommonOpt) :
    (get_binder_client_pairs common).length
        = min (splitOnChar ',' common.binder_http_fronts).length
            (splitOnChar ',' common.binder_http_hosts).length ∧
      get_binder_client_pairs common
        = ((splitOnChar ',' common.binder_http_fronts).take
              (min (splitOnChar ',' common.binder_http_fronts).length
                (splitOnChar ',' common.binder_http_hosts).length)).zip
            ((splitOnChar ',' common.binder_http_hosts).take
              (min (splitOnChar ',' common.binder_http_fronts).length
                (splitOnChar ',' common.binder_http_hosts).length)) :=
  ⟨List.length_zip _ _, zip_take_min _ _⟩

/-! ## C3: the conninfo store path (corrected: the file is "conninfo.json") -/

/-- C3 counterexample: at a concrete identity and cache root, the path the
code derives ends in "conninfo.json", not in the "conninfo" the spec
states; the two paths differ. -/
theorem c3_conninfo_path_counterexample :
    conninfo_path (fun bs => bs) (fun _ => [7])
        ⟨["root"], .authPassword "alice" "hunter2"⟩
      ≠ conninfo_path_claimed (fun bs => bs) (fun _ => [7])
        ⟨["root"], .authPassword "alice" "hunter2"⟩ := by decide

/-- C3 amended: get_conninfo_store derives the store path as
storage_root / hex(hash(serialized identity)) / "conninfo.json", and its
first filesystem effect creates the directory
storage_root / hex(hash(serialized identity)), strictly before the store is
connected on the file inside it. -/
theorem c3_conninfo_store_path (hash : List Nat → List Nat)
    (ser : AuthKind → List Nat) (auth_opt : AuthOpt) :
    conninfo_path hash ser auth_opt
        = auth_opt.credential_cache
            ++ [user_cache_key hash ser auth_opt.auth_kind, "conninfo.json"] ∧
      get_conninfo_store_trace hash ser auth_opt
        = [ConnInfoEffect.createDirAll
              (auth_opt.credential_cache ++ [user_cache_key hash ser auth_opt.auth_kind]),
            ConnInfoEffect.connectStore (conninfo_path hash ser auth_opt)] := by
  constructor
  · rfl
  · simp [get_conninfo_store_trace, conninfo_path]

/-! ## C5: keypair decode failure is a panic; passwords never panic -/

/-- C5: under keypair identity, a key file whose contents fail hex decoding,
or whose decoded bytes are not a valid Ed25519 secret key, makes credential
derivation panic (the process terminates) rather than return a value; under
password identity the derivation always returns the password credentials and
never takes the panic path. -/
theorem c5_get_creds_panics (skFromBytes : List Nat → Option (List Nat))
    (readFile : String → List Nat) (sk_path : String) :
    (hexDecode (readFile sk_path) = none →
        get_creds skFromBytes readFile (.authKeypair sk_path) = .panicStop) ∧
      (∀ sk_raw, hexDecode (readFile sk_path) = some sk_raw → skFromBytes sk_raw = none →
        get_creds skFromBytes readFile (.authKeypair sk_path) = .panicStop) ∧
      (∀ username pw,
        get_creds skFromBytes readFile (.authPassword username pw)
          = .value (.password username pw)) := by
  refine ⟨fun hdec => ?_, fun sk_raw hdec hsk => ?_, fun username pw => rfl⟩
  · simp [get_creds, hdec]
  · simp [get_creds, hdec, hsk]

/-- Witness for C5: a key file holding the single byte 'g' (0x67) is not
valid hex, so keypair derivation panics there, while password derivation
returns a value. -/
theorem c5_get_creds_panics_witness :
    get_creds (fun _ => none) (fun _ => [103]) (.authKeypair "key.bin") = .panicStop ∧
      get_creds (fun _ => none) (fun _ => [103]) (.authPassword "alice" "hunter2")
        = .value (.password "alice" "hunter2") :=
  ⟨(c5_get_creds_panics (fun _ => none) (fun _ => [103]) "key.bin").1 (by decide),
   (c5_get_creds_panics (fun _ => none) (fun _ => [103]) "key.bin").2.2 "alice" "hunter2"⟩

/-! ## C7: the refresh loop retries forever at a fixed 120-second period -/

/-- Is the event anything other than a sleep of exactly 120 seconds? -/
def sleep_not_120 : RefreshEvent → Bool
  | .sleepSecs s => s != 120
  | _ => false

/-- C7: under every sequence of refresh outcomes, the first n iterations of
the refresh loop perform exactly n refresh attempts, every sleep between
them is exactly 120 seconds, and every iteration — a failed one included —
ends by continuing the loop, never by terminating or escalating an error. -/
theorem c7_refresh_loop_retries (outcomes : Nat → Bool) (n : Nat) :
    (refresh_loop_trace outcomes n).count RefreshEvent.refreshAttempt = n ∧
      (refresh_loop_trace outcomes n).count (RefreshEvent.sleepSecs 120) = n ∧
      (refresh_loop_trace outcomes n).any sleep_not_120 = false ∧
      (refresh_loop_iter (outcomes n)).2 = .continueLoop := by
  refine ⟨?_, ?_, ?_, rfl⟩ <;>
  · induction n with
    | zero => simp [refresh_loop_trace]
    | succ k ih =>
      cases h : outcomes k <;>
        simp [refresh_loop_trace, refresh_loop_iter, h, ih, sleep_not_120]

/-! ## C4: malformed forward specs are rejected after the network tasks spawn -/

/-- C4 counterexample: with the single malformed forward entry "garbage",
the startup trace has network-task spawns (the socks5, DNS and refresh
spawns among them) strictly before the entry is rejected — rejection does
not happen before the network tasks are spawned, contradicting the claim. -/
theorem c4_reject_counterexample :
    spawn_before_reject (connect_task_trace (sample_connect_opt none ["garbage"])) = true := by
  decide

/-- A spawn event heading a trace whose tail holds a rejection witnesses a
spawn strictly before a rejection. -/
theorem spawn_before_reject_of_head (l : List StartEvent) (e : StartEvent)
    (hs : isSpawn e = true) (hr : l.any isReject = true) :
    spawn_before_reject (e :: l) = true := by
  simp [spawn_before_reject, hs, hr]

/-- C4 amended: a malformed forward-port entry is rejected inside its own
forwarding task, after the proxy, DNS and refresh tasks — and the forwarding
task itself — have already been spawned: the rejection event does occur, the
first four trace events are always those four spawns, and some network-task
spawn strictly precedes the rejection. -/
theorem c4_reject_after_spawns (cfg : ConnectOpt) (s : String)
    (hmem : s ∈ cfg.forward_ports) (hbad : parse_forward_spec s = none) :
    StartEvent.forwarderReject s ∈ connect_task_trace cfg ∧
      (connect_task_trace cfg).take 4
        = [.spawnHttpToSocks, .spawnSocks5, .spawnDns, .spawnRefresh] ∧
      spawn_before_reject (connect_task_trace cfg) = true := by
  have hflat : StartEvent.forwarderReject s
      ∈ cfg.forward_ports.flatMap
          (fun t => StartEvent.spawnForwarder t :: forwarder_task_trace t) := by
    refine List.mem_flatMap.mpr ⟨s, hmem, ?_⟩
    simp [forwarder_task_trace, hbad]
  refine ⟨?_, ?_, ?_⟩
  · exact List.mem_append_left _ (List.mem_append_right _ hflat)
  · rfl
  · have htrace : connect_task_trace cfg
        = StartEvent.spawnHttpToSocks ::
            (([StartEvent.spawnSocks5, StartEvent.spawnDns, StartEvent.spawnRefresh]
                ++ cfg.forward_ports.flatMap
                    (fun t => StartEvent.spawnForwarder t :: forwarder_task_trace t))
              ++ forwarder_select_all_trace cfg) := rfl
    rw [htrace]
    refine spawn_before_reject_of_head _ _ rfl ?_
    exact List.any_eq_true.mpr
      ⟨StartEvent.forwarderReject s,
        List.mem_append_left _ (List.mem_append_right _ hflat), rfl⟩

/-- Witness for C4 amended, at the concrete malformed entry "garbage". -/
theorem c4_reject_after_spawns_witness :
    StartEvent.forwarderReject "garbage"
        ∈ connect_task_trace (sample_connect_opt none ["garbage"]) ∧
      (connect_task_trace (sample_connect_opt none ["garbage"])).take 4
        = [.spawnHttpToSocks, .spawnSocks5, .spawnDns, .spawnRefresh] ∧
      spawn_before_reject (connect_task_trace (sample_connect_opt none ["garbage"])) = true :=
  c4_reject_after_spawns (sample_connect_opt none ["garbage"]) "garbage"
    (by decide) (by decide)

/-! ## C8: the cache subdirectory determines and is determined by the
serialized identity

The blake3 hash is an external primitive; the spec treats it as
collision-free ("two distinct identities always map to distinct cache
subdirectories"), so the theorem takes collision-freeness on the two
relevant inputs as a hypothesis and proves everything the repository's own
code contributes: hex encoding is injective on byte lists, so the
subdirectory names differ exactly when the hashes differ. -/

/-- The hexadecimal digit characters of two nibble values agree only when
the values agree. -/
theorem hexDigitChar_inj : ∀ m < 16, ∀ n < 16,
    hexDigitChar m = hexDigitChar n → m = n := by decide

/-- The two-character hex rendering of a byte below 256 determines the
byte. -/
theorem byteHexChars_inj (b c : Nat) (hb : b < 256) (hc : c < 256)
    (h : byteHexChars b = byteHexChars c) : b = c := by
  have hbdiv : b / 16 < 16 := Nat.div_lt_of_lt_mul hb
  have hcdiv : c / 16 < 16 := Nat.div_lt_of_lt_mul hc
  have hbmod : b % 16 < 16 := Nat.mod_lt _ (by omega)
  have hcmod : c % 16 < 16 := Nat.mod_lt _ (by omega)
  simp only [byteHexChars, List.cons.injEq, and_true] at h
  have hdiv := hexDigitChar_inj _ hbdiv _ hcdiv h.1
  have hmod := hexDigitChar_inj _ hbmod _ hcmod h.2
  have hb16 := Nat.div_add_mod b 16
  have hc16 := Nat.div_add_mod c 16
  omega

/-- Hex renderings of two byte lists agree only when the lists agree. -/
theorem flatMap_byteHexChars_inj : ∀ (bs cs : List Nat),
    (∀ x ∈ bs, x < 256) → (∀ x ∈ cs, x < 256) →
    bs.flatMap byteHexChars = cs.flatMap byteHexChars → bs = cs
  | [], [], _, _, _ => rfl
  | [], c :: cs, _, _, h => by simp [byteHexChars] at h
  | b :: bs, [], _, _, h => by simp [byteHexChars] at h
  | b :: bs, c :: cs, hb, hc, h => by
    simp only [List.flatMap_cons] at h
    have hhead : byteHexChars b = byteHexChars c := by
      have h2 : hexDigitChar (b / 16) = hexDigitChar (c / 16) ∧
          hexDigitChar (b % 16) = hexDigitChar (c % 16) := by
        simpa [byteHexChars] using congrArg (fun l => (l.take 2)) h
      simp [byteHexChars, h2.1, h2.2]
    have hbc : b = c :=
      byteHexChars_inj b c (hb b (by simp)) (hc c (by simp)) hhead
    have htail : bs.flatMap byteHexChars = cs.flatMap byteHexChars := by
      rw [hhead] at h
      exact List.append_cancel_left h
    have hrest := flatMap_byteHexChars_inj bs cs
      (fun x hx => hb x (List.mem_cons_of_mem _ hx))
      (fun x hx => hc x (List.mem_cons_of_mem _ hx)) htail
    rw [hbc, hrest]

/-- hexEncode is injective on byte lists. -/
theorem hexEncode_inj (bs cs : List Nat)
    (hb : ∀ x ∈ bs, x < 256) (hc : ∀ x ∈ cs, x < 256)
    (h : hexEncode bs = hexEncode cs) : bs = cs := by
  apply flatMap_byteHexChars_inj bs cs hb hc
  simpa [hexEncode] using congrArg String.data h

/-- C8: the cache subdirectory is a pure deterministic function of the
serialized identity — identical serializations give the identical
subdirectory — and, with the hash collision-free on the two serializations
(the spec's assumption about blake3), distinct serializations always give
distinct subdirectories. -/
theorem c8_user_cache_key_inj (hash : List Nat → List Nat)
    (ser : AuthKind → List Nat) (a b : AuthKind)
    (hA : ∀ x ∈ hash (ser a), x < 256) (hB : ∀ x ∈ hash (ser b), x < 256)
    (hcoll : hash (ser a) = hash (ser b) → ser a = ser b) :
    user_cache_key hash ser a = user_cache_key hash ser b ↔ ser a = ser b := by
  constructor
  · intro h
    exact hcoll (hexEncode_inj _ _ hA hB h)
  · intro h
    unfold user_cache_key
    rw [h]

/-- Witness for C8 at a concrete injective hash and two concretely distinct
identities: the password identity and the keypair identity get different
subdirectories. -/
theorem c8_user_cache_key_inj_witness :
    user_cache_key (fun bs => bs)
        (fun ak => match ak with | .authPassword _ _ => [0] | .authKeypair _ => [1])
        (.authPassword "alice" "hunter2")
      = user_cache_key (fun bs => bs)
        (fun ak => match ak with | .authPassword _ _ => [0] | .authKeypair _ => [1])
        (.authKeypair "key.bin")
      ↔ ([0] : List Nat) = [1] :=
  c8_user_cache_key_inj (fun bs => bs)
    (fun ak => match ak with | .authPassword _ _ => [0] | .authKeypair _ => [1])
    (.authPassword "alice" "hunter2") (.authKeypair "key.bin")
    (by decide) (by decide) (fun h => h)

/-! ## C9: the configuration singleton is initialized once and immutable -/

/-- Once INIT_CONFIG holds v and the lazy cell is either unforced or also
holds v, every later access returns v: no later operation changes the
value. -/
theorem run_config_ops_fixed {α : Type} (fromArgs v : α) :
    ∀ (ops : List (ConfigOp α)) (s : OnceState α),
      s.initConfig = some v → (s.lazyConfig = none ∨ s.lazyConfig = some v) →
      ∀ x ∈ (run_config_ops fromArgs ops s).2, x = v := by
  intro ops
  induction ops with
  | nil => intro s _ _ x hx; simp [run_config_ops] at hx
  | cons op rest ih =>
    intro s hinit hlazy x hx
    cases op with
    | overrideOp o =>
      have hov : override_config o s = s := by
        unfold override_config
        rw [hinit]
      rw [run_config_ops, hov] at hx
      exact ih s hinit hlazy x hx
    | accessOp =>
      cases hlz : s.lazyConfig with
      | some w =>
        have hw : w = v := by
          rcases hlazy with h | h
          · rw [hlz] at h; cases h
          · rw [hlz] at h; exact Option.some.inj h
        have hacc : access_config fromArgs s = (w, s) := by
          unfold access_config
          rw [hlz]
        rw [run_config_ops] at hx
        rw [hacc] at hx
        rcases List.mem_cons.mp hx with h | h
        · rw [h, hw]
        · exact ih s hinit hlazy x h
      | none =>
        have hacc : access_config fromArgs s
            = (v, { initConfig := some v, lazyConfig := some v }) := by
          unfold access_config
          rw [hlz, hinit]
        rw [run_config_ops] at hx
        rw [hacc] at hx
        rcases List.mem_cons.mp hx with h | h
        · exact h
        · exact ih _ rfl (Or.inr rfl) x h

/-- From any state whose lazy cell is unforced, all values the accesses of a
run return are equal to one another. -/
theorem run_config_ops_const {α : Type} (fromArgs : α) :
    ∀ (ops : List (ConfigOp α)) (s : OnceState α), s.lazyConfig = none →
      ∀ x ∈ (run_config_ops fromArgs ops s).2,
        ∀ y ∈ (run_config_ops fromArgs ops s).2, x = y := by
  intro ops
  induction ops with
  | nil => intro s _ x hx; simp [run_config_ops] at hx
  | cons op rest ih =>
    intro s hlz x hx y hy
    cases op with
    | overrideOp o =>
      have hlz2 : (override_config o s).lazyConfig = none := by
        unfold override_config
        cases h : s.initConfig <;> simp [h, hlz]
      rw [run_config_ops] at hx hy
      exact ih (override_config o s) hlz2 x hx y hy
    | accessOp =>
      cases hinit : s.initConfig with
      | some v =>
        have hacc : access_config fromArgs s
            = (v, { initConfig := some v, lazyConfig := some v }) := by
          unfold access_config
          rw [hlz, hinit]
        rw [run_config_ops, hacc] at hx hy
        have hfix := run_config_ops_fixed fromArgs v rest
          ⟨some v, some v⟩ rfl (Or.inr rfl)
        rcases List.mem_cons.mp hx with h | h <;>
          rcases List.mem_cons.mp hy with h2 | h2
        · rw [h, h2]
        · rw [h, hfix y h2]
        · rw [hfix x h, h2]
        · rw [hfix x h, hfix y h2]
      | none =>
        have hacc : access_config fromArgs s
            = (fromArgs, { initConfig := some fromArgs, lazyConfig := some fromArgs }) := by
          unfold access_config
          rw [hlz, hinit]
        rw [run_config_ops, hacc] at hx hy
        have hfix := run_config_ops_fixed fromArgs fromArgs rest
          ⟨some fromArgs, some fromArgs⟩ rfl (Or.inr rfl)
        rcases List.mem_cons.mp hx with h | h <;>
          rcases List.mem_cons.mp hy with h2 | h2
        · rw [h, h2]
        · rw [h, hfix y h2]
        · rw [hfix x h, h2]
        · rw [hfix x h, hfix y h2]

/-- C9: when override_config(opt) is the first operation — called before
CONFIG is first accessed — every access returns opt, later overrides
included in the run notwithstanding; when the first operation is an access,
that access and all later ones return the parsed-arguments value; and in
every run from the empty initial state all accesses return one and the same
value — the singleton never changes for the process lifetime. -/
theorem c9_config_singleton {α : Type} (fromArgs opt : α)
    (post tail ops : List (ConfigOp α)) :
    (∀ x ∈ config_access_results fromArgs (ConfigOp.overrideOp opt :: post), x = opt) ∧
      (∀ x ∈ config_access_results fromArgs (ConfigOp.accessOp :: tail), x = fromArgs) ∧
      (∀ x ∈ config_access_results fromArgs ops,
        ∀ y ∈ config_access_results fromArgs ops, x = y) := by
  refine ⟨?_, ?_, ?_⟩
  · intro x hx
    unfold config_access_results at hx
    rw [run_config_ops] at hx
    have hov : override_config opt (⟨none, none⟩ : OnceState α)
        = ⟨some opt, none⟩ := rfl
    rw [hov] at hx
    exact run_config_ops_fixed fromArgs opt post ⟨some opt, none⟩ rfl (Or.inl rfl) x hx
  · intro x hx
    unfold config_access_results at hx
    rw [run_config_ops] at hx
    have hacc : access_config fromArgs (⟨none, none⟩ : OnceState α)
        = (fromArgs, ⟨some fromArgs, some fromArgs⟩) := rfl
    rw [hacc] at hx
    rcases List.mem_cons.mp hx with h | h
    · exact h
    · exact run_config_ops_fixed fromArgs fromArgs tail
        ⟨some fromArgs, some fromArgs⟩ rfl (Or.inr rfl) x h
  · exact run_config_ops_const fromArgs ops ⟨none, none⟩ rfl

/-- Witness for C9 at a concrete run: override 3, then access, then a late
override 5 and another access — both accesses return 3. -/
theorem c9_config_singleton_witness :
    (config_access_results (7 : Nat)
        [ConfigOp.overrideOp 3, ConfigOp.accessOp, ConfigOp.overrideOp 5,
          ConfigOp.accessOp]).head! = 3 :=
  (c9_config_singleton (7 : Nat) 3
      [ConfigOp.accessOp, ConfigOp.overrideOp 5, ConfigOp.accessOp] [] []).1
    _ (by decide)
